import Mathlib

/-!
Verification of `firebase-wasm-rs`: a shallow embedding of the
callback-to-poll stream adapter in `src/storage.rs`
(`UploadTask::async_iter` / `UploadTaskAsyncIter`) and of the error
classification and transaction runner in `src/firestore.rs`
(`run_transaction`, `FirestoreErrorKind`, `From<FirebaseError>`).

The stream adapter's shared state (`snapshot`, `err`, `completed`,
`waker` — four `Rc<RefCell<_>>` cells) is embedded as an explicit record
`IterState`; the three registered callbacks (`on_snapshot`, `on_err`,
`on_complete`) and `Stream::poll_next` become state transformers.  The
host scheduler is single-threaded and cooperative, so callback firings
and polls interleave as atomic turns; an execution is a list of events
run through a step function.
-/

namespace FirebaseWasm

namespace Storage

/-- The payload of one `Result<UploadTaskSnapshot, JsValue>` stream item
(`Ok(snapshot)` or `Err(js_value)`), with both payload types kept
abstract. -/
inductive StreamItem (S E : Type) where
  | ok (s : S)
  | error (e : E)
deriving DecidableEq, Repr

/-- The value of `Poll<Option<Item>>` returned by `poll_next`:
`ready (some it)` is `Poll::Ready(Some(it))`, `ready none` is
`Poll::Ready(None)` (sequence exhausted), `pending` is `Poll::Pending`. -/
inductive PollRes (S E : Type) where
  | ready (it : Option (StreamItem S E))
  | pending
deriving DecidableEq, Repr

/-- The shared mutable state of `UploadTaskAsyncIter`: the four
`Rc<RefCell<_>>` cells created in `UploadTask::async_iter`
(`snapshot`, `err`, `completed`, `waker` in `src/storage.rs`). -/
structure IterState (S E W : Type) where
  snapshot : Option S
  err : Option E
  completed : Bool
  waker : Option W
deriving DecidableEq, Repr

variable {S E W : Type}

/-- The state right after `UploadTask::async_iter` constructs the cells:
all four are `Rc::default()` (empty options, `false`). -/
def initState : IterState S E W :=
  { snapshot := none, err := none, completed := false, waker := none }

/-- The `on_snapshot` callback: `*snapshot.borrow_mut() = Some(js_snapshot)`
then wakes the registered waker by reference (waking does not change any
cell). -/
def on_snapshot (s : S) (st : IterState S E W) : IterState S E W :=
  { st with snapshot := some s }

/-- The `on_err` callback: `*err.borrow_mut() = Some(js_err)`, then
`*completed.borrow_mut() = true`, then wakes the registered waker. -/
def on_err (e : E) (st : IterState S E W) : IterState S E W :=
  { st with err := some e, completed := true }

/-- The `on_complete` callback: `*completed.borrow_mut() = true`, then
wakes the registered waker. -/
def on_complete (st : IterState S E W) : IterState S E W :=
  { st with completed := true }

/-- `<UploadTaskAsyncIter as Stream>::poll_next`: first store the waker
unconditionally, then branch on `completed` (taking the pending error if
any), else on the pending snapshot (taking it), else return `Pending`.
Returns the `Poll` value together with the post-call state. -/
def poll_next (w : W) (st : IterState S E W) :
    PollRes S E × IterState S E W :=
  let st1 := { st with waker := some w }
  if st1.completed then
    match st1.err with
    | some e => (.ready (some (.error e)), { st1 with err := none })
    | none => (.ready none, st1)
  else
    match st1.snapshot with
    | some s => (.ready (some (.ok s)), { st1 with snapshot := none })
    | none => (.pending, st1)

/-- One atomic turn of the cooperative scheduler acting on the adapter:
a callback firing (`snap`, `errEv`, `complete`) or a consumer poll. -/
inductive Event (S E W : Type) where
  | snap (s : S)
  | errEv (e : E)
  | complete
  | poll (w : W)

/-- Apply one event; polls additionally produce an observable output. -/
def applyEvent : Event S E W → IterState S E W →
    IterState S E W × Option (PollRes S E)
  | .snap s, st => (on_snapshot s st, none)
  | .errEv e, st => (on_err e st, none)
  | .complete, st => (on_complete st, none)
  | .poll w, st =>
    let r := poll_next w st
    (r.2, some r.1)

/-- Run a list of events from a state, collecting the poll outputs in
order. -/
def runTrace (st : IterState S E W) :
    List (Event S E W) → IterState S E W × List (PollRes S E)
  | [] => (st, [])
  | ev :: evs =>
    let r := applyEvent ev st
    let rest := runTrace r.1 evs
    (rest.1, r.2.toList ++ rest.2)

/-- Resource accounting for the `unsub` handle: the adapter state paired
with the number of times the unsubscribe function has been invoked
(`self.unsub.call0(..)` appears only in `Drop::drop`). -/
structure IterLife (S E W : Type) where
  st : IterState S E W
  unsubCalls : Nat
deriving Repr

/-- A lifecycle turn: an ordinary event, or the destructor.  Rust runs
`Drop::drop` exactly once when the owner releases the iterator, so a
whole lifecycle is an event list followed by a single `dropIt`. -/
inductive LifeEvent (S E W : Type) where
  | ev (e : Event S E W)
  | dropIt

/-- One lifecycle turn: callbacks and polls never touch the unsubscribe
handle; `Drop::drop` performs `self.unsub.call0(&JsValue::UNDEFINED)`
once. -/
def lifeStep : LifeEvent S E W → IterLife S E W → IterLife S E W
  | .ev e, l => { l with st := (applyEvent e l.st).1 }
  | .dropIt, l => { l with unsubCalls := l.unsubCalls + 1 }

/-- Run a lifecycle from a fresh adapter (state from `async_iter`, zero
unsubscribe calls so far). -/
def runLife (evs : List (LifeEvent S E W)) : IterLife S E W :=
  evs.foldl (fun l e => lifeStep e l) ⟨initState, 0⟩

/-- On a completed state, `poll_next` returns the pending error (if any)
as an `Err` element and clears its slot; with no error it returns
`Ready(None)`.  The waker is stored either way. -/
theorem poll_next_completed (w : W) (st : IterState S E W)
    (h : st.completed = true) :
    poll_next w st =
      (.ready (st.err.map StreamItem.error),
        { st with waker := some w, err := none }) := by
  cases st with
  | mk snap e c wk =>
    subst h
    cases e <;> simp [poll_next]

/-- On a non-completed state, `poll_next` takes the pending snapshot if
one is present; otherwise it returns `Pending`. -/
theorem poll_next_not_completed (w : W) (st : IterState S E W)
    (h : st.completed = false) :
    poll_next w st =
      match st.snapshot with
      | some s => (.ready (some (.ok s)), { st with waker := some w, snapshot := none })
      | none => (.pending, { st with waker := some w }) := by
  cases st with
  | mk snap e c wk =>
    subst h
    cases snap <;> simp [poll_next]

/-- No event — callback or poll — resets the `completed` flag. -/
theorem applyEvent_completed_mono (ev : Event S E W) (st : IterState S E W)
    (h : st.completed = true) : ((applyEvent ev st).1).completed = true := by
  cases ev with
  | snap s => simpa [applyEvent, on_snapshot] using h
  | errEv e => simp [applyEvent, on_err]
  | complete => simp [applyEvent, on_complete]
  | poll w =>
    rw [applyEvent, poll_next_completed w st h]
    simpa using h

/-- Once completed, no poll in any continuation of the execution yields
an `Ok(snapshot)` element. -/
theorem runTrace_no_ok_of_completed (st : IterState S E W)
    (evs : List (Event S E W)) (h : st.completed = true) (s : S) :
    PollRes.ready (some (StreamItem.ok s)) ∉ (runTrace st evs).2 := by
  induction evs generalizing st with
  | nil => simp [runTrace]
  | cons ev evs ih =>
    have hmono := applyEvent_completed_mono ev st h
    intro hmem
    rw [runTrace] at hmem
    rcases List.mem_append.1 hmem with hl | hr
    · cases ev with
      | snap s' => simp [applyEvent] at hl
      | errEv e => simp [applyEvent] at hl
      | complete => simp [applyEvent] at hl
      | poll w =>
        rw [applyEvent] at hl
        rw [poll_next_completed w st h] at hl
        cases he : st.err <;> simp [he] at hl
    · exact ih (applyEvent ev st).1 hmono hr

/-- Polling a completed, error-free state leaves it completed and
error-free, so a run of consecutive polls outputs `Ready(None)` at every
step. -/
theorem runTrace_polls_exhausted (st : IterState S E W)
    (h1 : st.completed = true) (h2 : st.err = none) (ws : List W) :
    (runTrace st (ws.map Event.poll)).2 = ws.map fun _ => PollRes.ready none := by
  induction ws generalizing st with
  | nil => simp [runTrace]
  | cons w ws ih =>
    rw [List.map_cons, runTrace, applyEvent, poll_next_completed w st h1, h2]
    simp only [Option.map_none]
    rw [ih { st with waker := some w, err := none } h1 rfl]
    simp

/-- Claim C1: each call to `poll_next` first stores the provided waker
unconditionally, then — if `completed` is true — takes a pending error
and returns it as an element, or returns sequence-exhausted; else takes
and returns a pending snapshot, or returns `Pending`. -/
theorem poll_next_step_order (w : W) (st : IterState S E W) :
    ((poll_next w st).2.waker = some w) ∧
    (st.completed = true → ∀ e, st.err = some e →
      poll_next w st =
        (.ready (some (.error e)), { st with waker := some w, err := none })) ∧
    (st.completed = true → st.err = none →
      poll_next w st = (.ready none, { st with waker := some w })) ∧
    (st.completed = false → ∀ s, st.snapshot = some s →
      poll_next w st =
        (.ready (some (.ok s)), { st with waker := some w, snapshot := none })) ∧
    (st.completed = false → st.snapshot = none →
      poll_next w st = (.pending, { st with waker := some w })) := by
  refine ⟨?_, ?_, ?_, ?_, ?_⟩
  · cases hc : st.completed with
    | true =>
      rw [poll_next_completed w st hc]
    | false =>
      rw [poll_next_not_completed w st hc]
      cases st.snapshot <;> simp
  · intro hc e he
    rw [poll_next_completed w st hc, he]
    rfl
  · intro hc he
    rw [poll_next_completed w st hc, he]
    rfl
  · intro hc s hs
    rw [poll_next_not_completed w st hc, hs]
  · intro hc hs
    rw [poll_next_not_completed w st hc, hs]

/-- Witness for C1: the error branch at a concrete completed state. -/
theorem poll_next_step_order_witness :
    poll_next (0 : Nat)
        ({ snapshot := some 5, err := some 7, completed := true, waker := none } :
          IterState Nat Nat Nat) =
      (.ready (some (.error 7)),
        { snapshot := some 5, err := none, completed := true, waker := some 0 }) :=
  (poll_next_step_order 0 _).2.1 rfl 7 rfl

/-- Claim C2: when a snapshot delivery and a completion or error
delivery both land before any poll, the state is completed; a poll of a
completed state observes only the terminal outcome (the pending error as
an element, else sequence-exhausted), and once the completed flag is
true no poll in any continuation ever yields a snapshot element. -/
theorem completion_precedence (s : S) (e : E) (st : IterState S E W)
    (w : W) (evs : List (Event S E W)) :
    ((on_complete (on_snapshot s st)).completed = true) ∧
    ((on_err e (on_snapshot s st)).completed = true) ∧
    (st.completed = true →
      (poll_next w st).1 = .ready (st.err.map StreamItem.error)) ∧
    (st.completed = true → ∀ s',
      PollRes.ready (some (StreamItem.ok s')) ∉ (runTrace st evs).2) := by
  refine ⟨rfl, rfl, ?_, ?_⟩
  · intro hc
    rw [poll_next_completed w st hc]
  · intro hc s'
    exact runTrace_no_ok_of_completed st evs hc s'

/-- Witness for C2: a snapshot then a completion were delivered before
any poll; two subsequent polls never yield the snapshot. -/
theorem completion_precedence_witness :
    ((poll_next (0 : Nat)
        ({ snapshot := some 5, err := none, completed := true, waker := none } :
          IterState Nat Nat Nat)).1
      = PollRes.ready (Option.map StreamItem.error (none : Option Nat))) ∧
    PollRes.ready (some (StreamItem.ok 5)) ∉
      (runTrace
        ({ snapshot := some 5, err := none, completed := true, waker := none } :
          IterState Nat Nat Nat)
        [Event.poll 0, Event.poll 1]).2 :=
  ⟨(completion_precedence 5 7 _ 0 [Event.poll 0, Event.poll 1]).2.2.1 rfl,
   (completion_precedence 5 7 _ 0 [Event.poll 0, Event.poll 1]).2.2.2 rfl 5⟩

/-- Claim C3: a second snapshot delivery with no poll in between
overwrites the first (the two-delivery state equals the
one-delivery-of-the-second state); a poll after the two deliveries
yields exactly the second snapshot and clears the slot; the next poll is
`Pending` (the item is not duplicated); and in general any poll that
yields a snapshot leaves the slot empty. -/
theorem snapshot_latest_wins (s1 s2 : S) (st : IterState S E W) (w w' : W)
    (h : st.completed = false) :
    (on_snapshot s2 (on_snapshot s1 st) = on_snapshot s2 st) ∧
    ((poll_next w (on_snapshot s2 (on_snapshot s1 st))).1
      = .ready (some (.ok s2))) ∧
    ((poll_next w (on_snapshot s2 (on_snapshot s1 st))).2.snapshot = none) ∧
    ((poll_next w' ((poll_next w (on_snapshot s2 (on_snapshot s1 st))).2)).1
      = .pending) ∧
    (∀ s (st' : IterState S E W),
      (poll_next w st').1 = .ready (some (.ok s)) →
      (poll_next w st').2.snapshot = none) := by
  refine ⟨rfl, ?_, ?_, ?_, ?_⟩
  · cases st with
    | mk snap e c wk =>
      subst h
      simp [on_snapshot, poll_next]
  · cases st with
    | mk snap e c wk =>
      subst h
      simp [on_snapshot, poll_next]
  · cases st with
    | mk snap e c wk =>
      subst h
      simp [on_snapshot, poll_next]
  · intro s st' hp
    cases hc : st'.completed with
    | true =>
      rw [poll_next_completed w st' hc] at hp
      cases st'.err <;> simp at hp
    | false =>
      rw [poll_next_not_completed w st' hc] at hp ⊢
      cases st'.snapshot <;> simp at hp ⊢

/-- Witness for C3: two deliveries before a poll at a concrete fresh
state; the poll yields the second snapshot only, the next poll is
`Pending`. -/
theorem snapshot_latest_wins_witness :
    (on_snapshot 2 (on_snapshot 1 (initState : IterState Nat Nat Nat))
      = on_snapshot 2 initState) ∧
    ((poll_next 0 (on_snapshot 2 (on_snapshot 1 (initState : IterState Nat Nat Nat)))).1
      = .ready (some (.ok 2))) ∧
    ((poll_next 0 (on_snapshot 2 (on_snapshot 1 (initState : IterState Nat Nat Nat)))).2.snapshot
      = none) ∧
    ((poll_next 1 ((poll_next 0
        (on_snapshot 2 (on_snapshot 1 (initState : IterState Nat Nat Nat)))).2)).1
      = .pending) :=
  have h := snapshot_latest_wins 1 2 (initState : IterState Nat Nat Nat) 0 1 rfl
  ⟨h.1, h.2.1, h.2.2.1, h.2.2.2.1⟩

/-- Claim C4: the completed flag is monotonic — no callback and no poll
resets it — and after an `on_complete` delivery on a state with no
pending error, every subsequent poll returns sequence-exhausted. -/
theorem completed_monotone_exhaustion (st : IterState S E W)
    (ev : Event S E W) (ws : List W) :
    (st.completed = true → ((applyEvent ev st).1).completed = true) ∧
    (st.err = none →
      (runTrace (on_complete st) (ws.map Event.poll)).2
        = ws.map fun _ => PollRes.ready none) := by
  refine ⟨applyEvent_completed_mono ev st, ?_⟩
  intro he
  exact runTrace_polls_exhausted (on_complete st) rfl he ws

/-- Witness for C4: at a concrete completed state every event keeps the
flag set, and three polls after completion all report exhaustion. -/
theorem completed_monotone_exhaustion_witness :
    ((applyEvent (Event.snap 9)
        ({ snapshot := none, err := none, completed := true, waker := none } :
          IterState Nat Nat Nat)).1.completed = true) ∧
    ((runTrace (on_complete (initState : IterState Nat Nat Nat))
        ([0, 1, 2].map Event.poll)).2
      = [0, 1, 2].map fun _ => PollRes.ready none) :=
  ⟨(completed_monotone_exhaustion _ (Event.snap 9) []).1 rfl,
   (completed_monotone_exhaustion (initState : IterState Nat Nat Nat)
      (Event.snap 9) [0, 1, 2]).2 rfl⟩

/-- Claim C5: over any lifecycle — an arbitrary list of deliveries and
polls followed by the destructor — the unsubscribe function is invoked
exactly once: callbacks and polls never call it, and `Drop::drop` calls
it once. -/
theorem unsub_called_exactly_once (evs : List (Event S E W)) :
    (runLife (evs.map LifeEvent.ev ++ [LifeEvent.dropIt])).unsubCalls = 1 := by
  have key : ∀ (l : IterLife S E W) (es : List (Event S E W)),
      ((es.map LifeEvent.ev).foldl (fun l e => lifeStep e l) l).unsubCalls
        = l.unsubCalls := by
    intro l es
    induction es generalizing l with
    | nil => rfl
    | cons e es ih =>
      rw [List.map_cons, List.foldl_cons]
      exact ih _
  rw [runLife, List.foldl_append, List.foldl_cons, List.foldl_nil]
  show ((evs.map LifeEvent.ev).foldl (fun l e => lifeStep e l)
      ⟨initState, 0⟩).unsubCalls + 1 = 1
  rw [key]

/-- Claim C6: `on_err` stores the error and sets the completed flag; the
poll that observes it takes the error from the slot (clearing it) and
returns it as an `Err` element, and the immediately following poll
returns sequence-exhausted. -/
theorem terminal_error_final_element (e : E) (st : IterState S E W)
    (w w' : W) :
    ((on_err e st).err = some e) ∧
    ((on_err e st).completed = true) ∧
    ((poll_next w (on_err e st)).1 = .ready (some (.error e))) ∧
    ((poll_next w (on_err e st)).2.err = none) ∧
    ((poll_next w' ((poll_next w (on_err e st)).2)).1 = .ready none) := by
  cases st with
  | mk snap er c wk =>
    refine ⟨rfl, rfl, ?_, ?_, ?_⟩ <;> simp [on_err, poll_next]

end Storage

namespace Firestore

/-- The error-kind enum of `src/firestore.rs` (`FirestoreErrorKind`),
with the `#[strum(default)] Other(String)` catch-all. -/
inductive FirestoreErrorKind where
  | Cancelled
  | Unknown
  | InvalidArgument
  | DeadlineExceeded
  | NotFound
  | AlreadyExists
  | PermissionDenied
  | ResourceExhausted
  | FailedPrecondition
  | Aborted
  | OutOfRange
  | Unimplemented
  | Internal
  | Unavailable
  | DataLoss
  | Unauthenticated
  | Other (s : String)
deriving DecidableEq, Repr

/-- The `FromStr` parse that `strum_macros::EnumString` derives for
`FirestoreErrorKind`: each `#[strum(serialize = ..)]` string maps to its
variant, and because `Other` is marked `#[strum(default)]` every other
string produces `Ok(Other(s))` — the `Err` side of the `Result` is never
produced. -/
def FirestoreErrorKind.parse (s : String) : Except Unit FirestoreErrorKind :=
  if s = "cancelled" then .ok .Cancelled
  else if s = "unknown" then .ok .Unknown
  else if s = "invalid-argument" then .ok .InvalidArgument
  else if s = "deadline-exceeded" then .ok .DeadlineExceeded
  else if s = "not-found" then .ok .NotFound
  else if s = "already-exists" then .ok .AlreadyExists
  else if s = "permission-denied" then .ok .PermissionDenied
  else if s = "resource-exhausted" then .ok .ResourceExhausted
  else if s = "failed-precondition" then .ok .FailedPrecondition
  else if s = "aborted" then .ok .Aborted
  else if s = "out-of-range" then .ok .OutOfRange
  else if s = "unimplemented" then .ok .Unimplemented
  else if s = "internal" then .ok .Internal
  else if s = "unavailable" then .ok .Unavailable
  else if s = "data-loss" then .ok .DataLoss
  else if s = "unauthenticated" then .ok .Unauthenticated
  else .ok (.Other s)

/-- Modelled from the spec: `FirebaseError` is declared in the crate
root and the generated JS bindings, which are not under `src/`; the spec
describes it as the external system's structured error exposing a
`{kind: string, message: string}` shape, where the kind string is what
`err.code()` returns. -/
structure FirebaseError where
  code : String
  message : String
deriving DecidableEq, Repr

/-- `FirestoreError` of `src/firestore.rs`: a parsed kind plus its
source error. -/
structure FirestoreError where
  kind : FirestoreErrorKind
  source : FirebaseError
deriving DecidableEq, Repr

/-- `impl From<FirebaseError> for FirestoreError`:
`err.code().parse().unwrap()`.  The `none` branch is the panic of the
`unwrap`, taken exactly when the parse fails. -/
def FirestoreError.fromFirebase (err : FirebaseError) :
    Option FirestoreError :=
  match FirestoreErrorKind.parse err.code with
  | .ok kind => some { kind := kind, source := err }
  | .error _ => none

/-- Modelled from the spec: the untyped rejection values that the
external retry loop can deliver.  The bindings (not under `src/`) hand
over an arbitrary JS value; per the spec it is either an object carrying
a constructor name and, when it is the structured error, the
`{kind, message}` shape, or a non-object primitive such as the number
`42` (for which `dyn_into::<js_sys::Object>()` fails). -/
inductive JsValue where
  | nonObject (n : Int)
  | object (ctorName : String) (kind : String) (message : String)
deriving DecidableEq, Repr

/-- `TransactionError` of `src/firestore.rs`: either a structured
domain failure or the user-thrown value preserved verbatim. -/
inductive TransactionError where
  | Firestore (e : FirestoreError)
  | Custom (v : JsValue)
deriving DecidableEq, Repr

/-- The rejection classification in `run_transaction`'s `map_err`
closure: if the value is an object whose constructor name is
`"FirebaseError"`, convert it through `From<FirebaseError>` into the
`Firestore` variant (the `none` case is that conversion's `unwrap`
panic); every other value becomes `Custom` unchanged. -/
def classifyRejection (err : JsValue) : Option TransactionError :=
  match err with
  | .object ctorName kind message =>
    if ctorName = "FirebaseError" then
      (FirestoreError.fromFirebase { code := kind, message := message }).map
        TransactionError.Firestore
    else
      some (.Custom (.object ctorName kind message))
  | .nonObject n => some (.Custom (.nonObject n))

/-- `run_transaction`'s top level, as a function of how the external
retry loop settles.  Modelled from the spec for the part outside `src/`:
the external `runRetryLoop` binding resolves with the converted success
value of the last attempt, and the binding's return type discards that
resolved value, so the `Ok` side carries `()`.  A rejection is run
through `classifyRejection` (whose `none` case is a panic). -/
def run_transaction (settlement : Except JsValue JsValue) :
    Option (Except TransactionError Unit) :=
  match settlement with
  | .ok _ => some (.ok ())
  | .error e => (classifyRejection e).map .error

/-- Per-attempt result conversion inside `run_transaction`'s wrapped
closure: `update_fn(t).await.map(|v| v.into()).map_err(|err| err.into())`
— the mutation function's `Result<T, Err>` converted field-wise into the
external representation. -/
def attemptResult {T Err : Type} (toJsOk : T → JsValue)
    (toJsErr : Err → JsValue) (r : Except Err T) : Except JsValue JsValue :=
  match r with
  | .ok v => .ok (toJsOk v)
  | .error e => .error (toJsErr e)

/-- The borrow state of the `Rc<RefCell<F>>` holding the mutation
function in `run_transaction`: `true` while an attempt's
`update_fn.borrow_mut()` guard is alive (it is held across the attempt's
`await` and dropped when the attempt's future finishes). -/
inductive BorrowEvent where
  | start
  | finish

/-- One borrow transition: an attempt begins by taking `borrow_mut`,
which panics (`none`) exactly when the cell is already borrowed; when
the attempt's future completes the guard is dropped. -/
def borrowStep : BorrowEvent → Bool → Option Bool
  | .start, b => if b then none else some true
  | .finish, _ => some false

/-- Run a sequence of borrow transitions, propagating a panic. -/
def runBorrow : List BorrowEvent → Bool → Option Bool
  | [], b => some b
  | e :: es, b =>
    match borrowStep e b with
    | some b' => runBorrow es b'
    | none => none

/-- The borrow trace of `n` serialized attempts: the external loop
invokes the closure again only after the previous attempt's future has
completed, so each `start` is followed by its `finish` before the next
`start`. -/
def serializedAttempts : Nat → List BorrowEvent
  | 0 => []
  | n + 1 => BorrowEvent.start :: BorrowEvent.finish :: serializedAttempts n

/-- The derived parse never takes the `Err` branch: every serialized
string maps to its variant and everything else lands in the
`Other (String)` default. -/
theorem parse_always_ok (s : String) :
    (FirestoreErrorKind.parse s).isOk = true := by
  unfold FirestoreErrorKind.parse
  simp only [apply_ite Except.isOk]
  simp [Except.isOk, Except.toBool]

/-- Claim C7: a rejection value with the structured shape
`{kind: "not-found", message: "x"}` (an object constructed by
`FirebaseError`) is classified as the structured domain-failure variant
with kind `NotFound`; the rejection value `42`, which has no structured
shape, is classified as the opaque-failure variant carrying the value
verbatim. -/
theorem rejection_classification :
    (classifyRejection (.object "FirebaseError" "not-found" "x")
      = some (.Firestore
          { kind := .NotFound,
            source := { code := "not-found", message := "x" } })) ∧
    (classifyRejection (.nonObject 42) = some (.Custom (.nonObject 42))) := by
  exact ⟨by decide, rfl⟩

/-- Claim C8: converting a `FirebaseError` into a `FirestoreError`
never panics — the kind parse succeeds on every code string thanks to
the `Other (String)` catch-all, so the `unwrap` in the `From`
conversion is unreachable as a failure. -/
theorem firebase_to_firestore_no_panic (s : String) (err : FirebaseError) :
    ((FirestoreErrorKind.parse s).isOk = true) ∧
    ((FirestoreError.fromFirebase err).isSome = true) := by
  refine ⟨parse_always_ok s, ?_⟩
  unfold FirestoreError.fromFirebase
  cases h : FirestoreErrorKind.parse err.code with
  | ok k => rfl
  | error u =>
    have hok := parse_always_ok err.code
    rw [h] at hok
    exact absurd hok (by simp [Except.isOk, Except.toBool])

/-- Claim C9: with attempts serialized by the external retry loop —
each attempt's future completes, dropping its `borrow_mut` guard,
before the next attempt begins — the exclusive borrow taken at the
start of every attempt succeeds: no trace of serialized attempts
reaches the `RefCell` panic branch. -/
theorem serialized_attempts_borrow_ok (n : Nat) :
    runBorrow (serializedAttempts n) false = some false := by
  induction n with
  | zero => rfl
  | succ n ih =>
    rw [serializedAttempts]
    simp [runBorrow, borrowStep, ih]

/-- Claim C10: on success `run_transaction` returns `Ok(())` — the
mutation function's success value is converted into the external
representation and handed to the external loop, but the settled value
is discarded at the top level, whatever it was. -/
theorem run_transaction_discards_success {T Err : Type}
    (toJsOk : T → JsValue) (toJsErr : Err → JsValue) (t : T) :
    (attemptResult toJsOk toJsErr (.ok t) = .ok (toJsOk t)) ∧
    (run_transaction (.ok (toJsOk t)) = some (.ok ())) :=
  ⟨rfl, rfl⟩

end Firestore

end FirebaseWasm
